import Mathlib

/-!
Verification development for the blue-green-pricing backend.

The definitions below are a shallow embedding of the routing core:
`src/backend/src/utils/helpers.js`, the `RoutingService` and
`PricingService` classes, `src/backend/src/controllers/pricingController.js`
and `src/backend/src/config/index.js`.  JavaScript strings are Lean
`String`s, JavaScript `null`/`undefined` results are `Option`, and the
32-bit arithmetic of the MD5 digest is `Nat` arithmetic reduced modulo
`2 ^ 32`.  Node's `crypto` MD5 (an external library from the repo's point
of view) is modelled by a full executable MD5 implementation so that the
hash-dependent definitions stay executable.
-/

set_option maxRecDepth 20000

namespace BlueGreen

/-- The modulus `2 ^ 32` for the 32-bit arithmetic inside MD5. -/
def MASK32 : Nat := 4294967296

/-- Left rotation on 32 bits of a `Nat` already reduced modulo `2 ^ 32`. -/
def rotl32 (x n : Nat) : Nat :=
  ((x <<< n) % MASK32) ||| (x >>> (32 - n))

/-- UTF-8 encoding of a single code point (as `crypto.update` sees a JS string). -/
def utf8EncodeChar (c : Nat) : List Nat :=
  if c < 128 then [c]
  else if c < 2048 then [192 ||| (c >>> 6), 128 ||| (c &&& 63)]
  else if c < 65536 then [224 ||| (c >>> 12), 128 ||| ((c >>> 6) &&& 63), 128 ||| (c &&& 63)]
  else [240 ||| (c >>> 18), 128 ||| ((c >>> 12) &&& 63), 128 ||| ((c >>> 6) &&& 63), 128 ||| (c &&& 63)]

/-- UTF-8 byte sequence of a string. -/
def utf8Bytes (s : String) : List Nat :=
  (s.data.map (fun c => utf8EncodeChar c.toNat)).flatten

/-- The 64 MD5 sine-table constants. -/
def md5K : List Nat :=
  [3614090360, 3905402710, 606105819, 3250441966, 4118548399, 1200080426, 2821735955, 4249261313,
   1770035416, 2336552879, 4294925233, 2304563134, 1804603682, 4254626195, 2792965006, 1236535329,
   4129170786, 3225465664, 643717713, 3921069994, 3593408605, 38016083, 3634488961, 3889429448,
   568446438, 3275163606, 4107603335, 1163531501, 2850285829, 4243563512, 1735328473, 2368359562,
   4294588738, 2272392833, 1839030562, 4259657740, 2763975236, 1272893353, 4139469664, 3200236656,
   681279174, 3936430074, 3572445317, 76029189, 3654602809, 3873151461, 530742520, 3299628645,
   4096336452, 1126891415, 2878612391, 4237533241, 1700485571, 2399980690, 4293915773, 2240044497,
   1873313359, 4264355552, 2734768916, 1309151649, 4149444226, 3174756917, 718787259, 3951481745]

/-- The 64 MD5 per-round shift amounts. -/
def md5S : List Nat :=
  [7, 12, 17, 22, 7, 12, 17, 22, 7, 12, 17, 22, 7, 12, 17, 22,
   5, 9, 14, 20, 5, 9, 14, 20, 5, 9, 14, 20, 5, 9, 14, 20,
   4, 11, 16, 23, 4, 11, 16, 23, 4, 11, 16, 23, 4, 11, 16, 23,
   6, 10, 15, 21, 6, 10, 15, 21, 6, 10, 15, 21, 6, 10, 15, 21]

/-- One MD5 round: `M` is the 16-word message block, `st` the `(A,B,C,D)` state. -/
def md5Round (M : List Nat) (st : Nat × Nat × Nat × Nat) (i : Nat) : Nat × Nat × Nat × Nat :=
  let (A, B, C, D) := st
  let fg : Nat × Nat :=
    if i < 16 then ((B &&& C) ||| ((B ^^^ 4294967295) &&& D), i)
    else if i < 32 then ((D &&& B) ||| ((D ^^^ 4294967295) &&& C), (5 * i + 1) % 16)
    else if i < 48 then (B ^^^ C ^^^ D, (3 * i + 5) % 16)
    else (C ^^^ (B ||| (D ^^^ 4294967295)), (7 * i) % 16)
  let tmp := (A + fg.1 + md5K.getD i 0 + M.getD fg.2 0) % MASK32
  let Bnew := (B + rotl32 tmp (md5S.getD i 0)) % MASK32
  (D, Bnew, B, C)

/-- Process one 512-bit block. -/
def md5Block (st : Nat × Nat × Nat × Nat) (M : List Nat) : Nat × Nat × Nat × Nat :=
  let (a0, b0, c0, d0) := st
  let r := (List.range 64).foldl (md5Round M) st
  ((a0 + r.1) % MASK32, (b0 + r.2.1) % MASK32, (c0 + r.2.2.1) % MASK32, (d0 + r.2.2.2) % MASK32)

/-- A 32-bit word from four little-endian bytes. -/
def leWord (b0 b1 b2 b3 : Nat) : Nat := b0 + b1 * 256 + b2 * 65536 + b3 * 16777216

/-- Split a byte list into little-endian 32-bit words. -/
def toWords : List Nat → List Nat
  | b0 :: b1 :: b2 :: b3 :: rest => leWord b0 b1 b2 b3 :: toWords rest
  | _ => []

/-- The eight little-endian bytes of a 64-bit length field. -/
def leBytes8 (n : Nat) : List Nat := (List.range 8).map (fun i => (n >>> (8 * i)) % 256)

/-- MD5 padding: a `0x80` byte, zeros to 56 mod 64, then the bit length. -/
def md5Pad (msg : List Nat) : List Nat :=
  msg ++ 128 :: List.replicate ((120 - (msg.length + 1) % 64) % 64) 0
      ++ leBytes8 ((msg.length * 8) % (2 ^ 64))

/-- Fuel-indexed splitting into 64-byte chunks (structural, so it reduces). -/
def chunks64Aux : Nat → List Nat → List (List Nat)
  | 0, _ => []
  | _, [] => []
  | fuel + 1, a :: t => ((a :: t).take 64) :: chunks64Aux fuel (t.drop 63)

/-- Split a byte list into 64-byte chunks. -/
def chunks64 (l : List Nat) : List (List Nat) := chunks64Aux l.length l

/-- Lower-case hex digit for a value below 16. -/
def hexDigit (n : Nat) : Char := if n < 10 then Char.ofNat (48 + n) else Char.ofNat (87 + n)

/-- Two hex digits of a byte. -/
def byteHex (b : Nat) : List Char := [hexDigit (b / 16), hexDigit (b % 16)]

/-- Hex rendering of a 32-bit word, little-endian byte order (as MD5 prints it). -/
def wordLEHex (w : Nat) : List Char :=
  byteHex (w % 256) ++ byteHex ((w >>> 8) % 256) ++ byteHex ((w >>> 16) % 256) ++ byteHex ((w >>> 24) % 256)

/-- The full MD5 hex digest of a byte list; models Node's
`crypto.createHash('md5').update(s).digest('hex')`. -/
def md5Hex (msg : List Nat) : String :=
  let st := (chunks64 (md5Pad msg)).foldl (fun st c => md5Block st (toWords c))
    (1732584193, 4023233417, 2562383102, 271733878)
  String.mk (wordLEHex st.1 ++ wordLEHex st.2.1 ++ wordLEHex st.2.2.1 ++ wordLEHex st.2.2.2)

/-- Value of one hex character, as `parseInt(..., 16)` reads it; 0 otherwise. -/
def hexCharVal (c : Char) : Nat :=
  if 48 ≤ c.toNat ∧ c.toNat ≤ 57 then c.toNat - 48
  else if 97 ≤ c.toNat ∧ c.toNat ≤ 102 then c.toNat - 87
  else if 65 ≤ c.toNat ∧ c.toNat ≤ 70 then c.toNat - 55
  else 0

/-- Parse a string of hex digits as a number (`parseInt(s, 16)` on a valid input). -/
def parseHexNat (s : String) : Nat := s.data.foldl (fun acc c => acc * 16 + hexCharVal c) 0

/-- The first `n` characters of a string (JS `s.substring(0, n)`). -/
def strTake (s : String) (n : Nat) : String := String.mk (s.data.take n)

/-- Drop the first `n` characters of a string (JS `s.substring(n)`). -/
def strDropN (s : String) (n : Nat) : String := String.mk (s.data.drop n)

/-- Char-list prefix test used to model JS `String.startsWith`. -/
def charsStartWith : List Char → List Char → Bool
  | [], _ => true
  | _ :: _, [] => false
  | p :: ps, c :: cs => p = c && charsStartWith ps cs

/-- JS `s.startsWith(p)`. -/
def strStartsWith (s p : String) : Bool := charsStartWith p.data s.data

/-- ASCII lower-casing of one character. -/
def charToLower (c : Char) : Char :=
  if 65 ≤ c.toNat ∧ c.toNat ≤ 90 then Char.ofNat (c.toNat + 32) else c

/-- JS `s.toLowerCase()` on ASCII strings. -/
def strToLower (s : String) : String := String.mk (s.data.map charToLower)

/-- Characters before the first comma. -/
def takeUntilComma : List Char → List Char
  | [] => []
  | c :: t => if c = ',' then [] else c :: takeUntilComma t

/-- JS `s.split(',')[0]`. -/
def splitCommaHead (s : String) : String := String.mk (takeUntilComma s.data)

/-- Lookup in an association list, modelling JS object / map indexing
(`undefined` when the key is missing). -/
def lookupStr (l : List (String × String)) (k : String) : Option String :=
  (l.find? (fun p => p.1 = k)).map (fun p => p.2)

/-- JS truthiness of a `string | null | undefined` value:
`null`, `undefined` and the empty string are falsy. -/
def jsTruthy : Option String → Bool
  | none => false
  | some s => !(s = "")

/-- JS `a || b` on `string | null | undefined` values. -/
def jsOr (a b : Option String) : Option String := if jsTruthy a then a else b

end BlueGreen

namespace BlueGreen.Helpers

/-- Embedding of `helpers.js` `hashString`: the MD5 hex digest of a string. -/
def hashString (input : String) : String := BlueGreen.md5Hex (BlueGreen.utf8Bytes input)

/-- Embedding of `helpers.js` `hashToNumber`: `parseInt(hashString(input).substring(0, 8), 16)`. -/
def hashToNumber (input : String) : Nat :=
  BlueGreen.parseHexNat (BlueGreen.strTake (hashString input) 8)

/-- Embedding of `helpers.js` `getPercentageFromHash`: `hashToNumber(input) % 100`. -/
def getPercentageFromHash (input : String) : Nat := hashToNumber input % 100

/-- Embedding of `helpers.js` `sanitizeIp`; the argument is `Option` because the JS function
also accepts `undefined`/`null` (both falsy, like the empty string). -/
def sanitizeIp (ip : Option String) : String :=
  match ip with
  | none => "0.0.0.0"
  | some s =>
    if s = "" then "0.0.0.0"
    else if BlueGreen.strStartsWith s "::ffff:" then BlueGreen.strDropN s 7
    else if s = "::1" then "127.0.0.1"
    else s

/-- Embedding of `helpers.js` `isValidVersion`. -/
def isValidVersion (version : String) : Bool := version = "blue" || version = "green"

end BlueGreen.Helpers

namespace BlueGreen

/-- The inbound-request view the routing code reads: `req.ip`, the raw socket
addresses consulted by `getClientIp`, and the (lower-cased, as Express stores
them) header map and cookie map. -/
structure Request where
  ip : Option String
  connectionRemoteAddress : Option String
  socketRemoteAddress : Option String
  connectionSocketRemoteAddress : Option String
  headers : List (String × String)
  cookies : List (String × String)
deriving DecidableEq

/-- Embedding of `config.routing.percentage`. -/
structure PercentageConfig where
  enabled : Bool
  blue : Int
  green : Int
deriving DecidableEq

/-- Embedding of `config.routing.header`.  The expected values are `Option` because the JS
comparison `headerValue === config.blueValue` also ranges over `undefined`. -/
structure HeaderConfig where
  enabled : Bool
  headerName : String
  blueValue : Option String
  greenValue : Option String
deriving DecidableEq

/-- Embedding of `config.routing.cookie`. -/
structure CookieConfig where
  enabled : Bool
  cookieName : String
  maxAge : Option Nat
deriving DecidableEq

/-- Embedding of `config.routing.ip`. -/
structure IpConfig where
  enabled : Bool
  blueIps : List String
  greenIps : List String
deriving DecidableEq

/-- Embedding of `config.routing.stickySession`. -/
structure StickySessionConfig where
  enabled : Bool
  cookieName : String
deriving DecidableEq

/-- The assembled `config.routing` object consumed by `RoutingService`. -/
structure RoutingConfig where
  percentage : PercentageConfig
  header : HeaderConfig
  cookie : CookieConfig
  ip : IpConfig
  stickySession : StickySessionConfig
  priority : List String
deriving DecidableEq

end BlueGreen

namespace BlueGreen.RoutingService

open BlueGreen

/-- Embedding of `RoutingService.getClientIp`: the JS `||` chain over `req.ip`, the socket
addresses, the first `x-forwarded-for` entry, and `'127.0.0.1'`. -/
def getClientIp (req : Request) : String :=
  let xff := (lookupStr req.headers "x-forwarded-for").map splitCommaHead
  let r := jsOr req.ip (jsOr req.connectionRemoteAddress (jsOr req.socketRemoteAddress
    (jsOr req.connectionSocketRemoteAddress xff)))
  match r with
  | some s => if s = "" then "127.0.0.1" else s
  | none => "127.0.0.1"

/-- Embedding of `RoutingService.getClientIdentifier`: `` `${ip}-${userAgent}` `` with
`req.headers['user-agent'] || ''`. -/
def getClientIdentifier (req : Request) : String :=
  let ip := getClientIp req
  let userAgent := (lookupStr req.headers "user-agent").getD ""
  ip ++ "-" ++ userAgent

/-- Embedding of `RoutingService.hashString`: MD5 hex digest, first 8 hex digits parsed base 16. -/
def hashString (str : String) : Nat :=
  let hash := md5Hex (utf8Bytes str)
  parseHexNat (strTake hash 8)

/-- Embedding of `RoutingService.checkStickySession`: the sticky cookie's value when it is
exactly `'blue'` or `'green'`, else `null`. -/
def checkStickySession (cfg : RoutingConfig) (req : Request) : Option String :=
  let sessionVersion := lookupStr req.cookies cfg.stickySession.cookieName
  if sessionVersion = some "blue" ∨ sessionVersion = some "green" then sessionVersion else none

/-- Embedding of `RoutingService.applyHeaderRouting`. -/
def applyHeaderRouting (req : Request) (c : HeaderConfig) : Option String :=
  let headerValue := lookupStr req.headers (strToLower c.headerName)
  if headerValue = c.blueValue then some "blue"
  else if headerValue = c.greenValue then some "green"
  else none

/-- Embedding of `RoutingService.applyCookieRouting`: the named cookie's value when it is
exactly `'blue'` or `'green'`, else `null`. -/
def applyCookieRouting (req : Request) (c : CookieConfig) : Option String :=
  let cookieValue := lookupStr req.cookies c.cookieName
  if cookieValue = some "blue" ∨ cookieValue = some "green" then cookieValue else none

/-- Embedding of `RoutingService.applyIpRouting`. -/
def applyIpRouting (req : Request) (c : IpConfig) : Option String :=
  let clientIp := getClientIp req
  if c.blueIps.contains clientIp then some "blue"
  else if c.greenIps.contains clientIp then some "green"
  else none

/-- Embedding of `RoutingService.applyPercentageRouting`: hash the client identifier,
reduce mod 100, compare against the configured blue percentage only. -/
def applyPercentageRouting (req : Request) (c : PercentageConfig) : String :=
  let identifier := getClientIdentifier req
  let hash := hashString identifier
  let percentage := hash % 100
  if (percentage : Int) < c.blue then "blue" else "green"

/-- Embedding of `RoutingService.applyRule`: dispatch on the rule name after the
`!ruleConfig || !ruleConfig.enabled` guard; unknown names yield `null`. -/
def applyRule (cfg : RoutingConfig) (ruleName : String) (req : Request) : Option String :=
  if ruleName = "header" then
    if cfg.header.enabled then applyHeaderRouting req cfg.header else none
  else if ruleName = "cookie" then
    if cfg.cookie.enabled then applyCookieRouting req cfg.cookie else none
  else if ruleName = "ip" then
    if cfg.ip.enabled then applyIpRouting req cfg.ip else none
  else if ruleName = "percentage" then
    if cfg.percentage.enabled then some (applyPercentageRouting req cfg.percentage) else none
  else none

/-- The `for (const rule of priority)` loop of `determineVersion`, including
its final `return 'blue'` default. -/
def applyRules (cfg : RoutingConfig) : List String → Request → String
  | [], _ => "blue"
  | r :: rest, req =>
    match applyRule cfg r req with
    | some version => version
    | none => applyRules cfg rest req

/-- Embedding of `RoutingService.determineVersion`: sticky session first, then the
priority loop, then the hardcoded `'blue'` fallback. -/
def determineVersion (cfg : RoutingConfig) (req : Request) : String :=
  match (if cfg.stickySession.enabled then checkStickySession cfg req else none) with
  | some stickyVersion => stickyVersion
  | none => applyRules cfg cfg.priority req

/-- Embedding of `RoutingService.setStickySession`: the cookie-write directive
`(name, value, maxAge)` it issues, or `none` when sticky sessions are off.
`maxAge` is `this.routingConfig.cookie.maxAge || 86400000` (0 is falsy). -/
def setStickySession (cfg : RoutingConfig) (version : String) : Option (String × String × Nat) :=
  if cfg.stickySession.enabled then
    some (cfg.stickySession.cookieName, version,
      match cfg.cookie.maxAge with
      | some m => if m = 0 then 86400000 else m
      | none => 86400000)
  else none

end BlueGreen.RoutingService

namespace BlueGreen.PricingService

open BlueGreen

/-- One step of the `getRoutingReason` priority loop: the tag the `switch`
returns for this rule name, or `none` when the loop `continue`s. -/
def reasonStep (cfg : RoutingConfig) (rule : String) (req : Request) (version : String) :
    Option String :=
  if rule = "header" then
    if cfg.header.enabled then
      let headerValue := lookupStr req.headers (strToLower cfg.header.headerName)
      if (headerValue = cfg.header.blueValue ∧ version = "blue") ∨
          (headerValue = cfg.header.greenValue ∧ version = "green") then
        some ("header-" ++ cfg.header.headerName)
      else none
    else none
  else if rule = "cookie" then
    if cfg.cookie.enabled then
      if lookupStr req.cookies cfg.cookie.cookieName = some version then
        some ("cookie-" ++ cfg.cookie.cookieName)
      else none
    else none
  else if rule = "ip" then
    if cfg.ip.enabled then
      let clientIp := RoutingService.getClientIp req
      if (cfg.ip.blueIps.contains clientIp ∧ version = "blue") ∨
          (cfg.ip.greenIps.contains clientIp ∧ version = "green") then
        some "ip-based"
      else none
    else none
  else if rule = "percentage" then
    if cfg.percentage.enabled then some "percentage-split" else none
  else none

/-- The priority loop of `getRoutingReason` with its `'default-fallback'` exit. -/
def reasonRules (cfg : RoutingConfig) : List String → Request → String → String
  | [], _, _ => "default-fallback"
  | r :: rest, req, version =>
    match reasonStep cfg r req version with
    | some tag => tag
    | none => reasonRules cfg rest req version

/-- Embedding of `PricingService.getRoutingReason`: sticky check first
(`stickyVersion === version`), then the rule loop. -/
def getRoutingReason (cfg : RoutingConfig) (req : Request) (version : String) : String :=
  if cfg.stickySession.enabled ∧ RoutingService.checkStickySession cfg req = some version then
    "sticky-session"
  else reasonRules cfg cfg.priority req version

/-- The mutable state of a `PricingService` instance: `versionStats` (a JS
object initialised to `{ blue: 0, green: 0 }`) and `requestCount` (a `Map`
keyed by client IP). -/
structure ServiceState where
  versionStats : List (String × Nat)
  requestCount : List (String × Nat)
deriving DecidableEq

/-- The constructor state: `{ blue: 0, green: 0 }` and an empty map. -/
def initialState : ServiceState := ⟨[("blue", 0), ("green", 0)], []⟩

/-- Embedding of `obj[k] = (obj[k] || 0) + 1` on an association-list model of a JS
object / `Map`: bump an existing key or append a fresh one. -/
def bumpAssoc : List (String × Nat) → String → List (String × Nat)
  | [], k => [(k, 1)]
  | (k1, v) :: t, k => if k1 = k then (k1, v + 1) :: t else (k1, v) :: bumpAssoc t k

/-- Read a counter from the association-list model, 0 when absent. -/
def lookupNat (l : List (String × Nat)) (k : String) : Nat :=
  ((l.find? (fun p => p.1 = k)).map (fun p => p.2)).getD 0

/-- Embedding of `PricingService.updateStats`. -/
def updateStats (st : ServiceState) (version : String) (req : Request) : ServiceState :=
  { versionStats := bumpAssoc st.versionStats version
    requestCount := bumpAssoc st.requestCount (RoutingService.getClientIp req) }

/-- The observable part of `PricingService.getStats`: totals, per-version
counts and percentages, and the unique-client count.  Percentages are exact
rationals; `getStats` renders them with `toFixed(2)` when the total is
positive and returns the number 0 otherwise. -/
structure StatsSnapshot where
  totalRequests : Nat
  blueCount : Nat
  bluePercentage : ℚ
  greenCount : Nat
  greenPercentage : ℚ
  uniqueClients : Nat
deriving DecidableEq

/-- Embedding of `PricingService.getStats`. -/
def getStats (st : ServiceState) : StatsSnapshot :=
  let blue := lookupNat st.versionStats "blue"
  let green := lookupNat st.versionStats "green"
  let totalRequests := blue + green
  { totalRequests := totalRequests
    blueCount := blue
    bluePercentage := if totalRequests > 0 then (blue : ℚ) / (totalRequests : ℚ) * 100 else 0
    greenCount := green
    greenPercentage := if totalRequests > 0 then (green : ℚ) / (totalRequests : ℚ) * 100 else 0
    uniqueClients := st.requestCount.length }

/-- Embedding of `PricingService.resetStats`: `{ blue: 0, green: 0 }` and `clear()`. -/
def resetStats (_ : ServiceState) : ServiceState := initialState

/-- The routing metadata attached to a pricing response. -/
structure RoutingMeta where
  version : String
  routingReason : String
deriving DecidableEq

/-- The externally visible side effects of one `getPricing` call: the sticky
cookie directive it issues and the pricing-data version it fetches. -/
structure Effects where
  cookieDirective : Option (String × String × Nat)
  pricingFetched : Option String
deriving DecidableEq

/-- No side effects (nothing written, nothing fetched). -/
def noEffects : Effects := ⟨none, none⟩

/-- Embedding of `PricingService.getPricing`, parametrised by the decision function so the
controller's temporary `determineVersion` override is expressible: decide,
set the sticky cookie, fetch the decided version's data, update stats, and
attach the routing metadata. -/
def getPricing (cfg : RoutingConfig) (determine : Request → String) (st : ServiceState)
    (req : Request) : RoutingMeta × ServiceState × Effects :=
  let version := determine req
  let cookie := RoutingService.setStickySession cfg version
  let st1 := updateStats st version req
  ({ version := version, routingReason := getRoutingReason cfg req version }, st1,
    { cookieDirective := cookie, pricingFetched := some version })

end BlueGreen.PricingService

namespace BlueGreen.PricingController

open BlueGreen BlueGreen.PricingService

/-- Embedding of `PricingController.getSpecificVersion`: reject anything but
`'blue'`/`'green'` with a 400 before any routing work; otherwise run
`getPricing` with `determineVersion` overridden to the forced version.
The result is the HTTP status, the service state after the call, and the
side effects performed. -/
def getSpecificVersion (cfg : RoutingConfig) (version : String) (st : ServiceState)
    (req : Request) : Nat × ServiceState × Effects :=
  if version = "blue" ∨ version = "green" then
    let r := getPricing cfg (fun _ => version) st req
    (200, r.2.1, r.2.2)
  else
    (400, st, noEffects)

end BlueGreen.PricingController

namespace BlueGreen.Config

open BlueGreen

/-- The environment variables `config/index.js` consults for routing. -/
structure Env where
  bluePercentage : Option String
  greenPercentage : Option String
  enablePercentageRouting : Option String
  enableHeaderRouting : Option String
  enableCookieRouting : Option String
  enableIpRouting : Option String
deriving DecidableEq

/-- The file-loaded (or fallback) rule set:
`routingRules.routingRules` plus `stickySession` and `priority`. -/
structure FileRules where
  percentage : PercentageConfig
  header : HeaderConfig
  cookie : CookieConfig
  ip : IpConfig
  stickySession : StickySessionConfig
  priority : List String
deriving DecidableEq

/-- Leading decimal digits as a number, `none` when there are none
(`parseInt` returning `NaN`). -/
def digitsVal : List Char → Option Nat
  | l =>
    let d := l.takeWhile Char.isDigit
    if d.isEmpty then none else some (d.foldl (fun acc c => acc * 10 + (c.toNat - 48)) 0)

/-- JS `parseInt` (base 10): skip leading spaces, optional sign, leading
digits; `none` models `NaN`. -/
def jsParseInt (s : String) : Option Int :=
  let l := s.data.dropWhile (fun c => c = ' ')
  match l with
  | '-' :: rest => (digitsVal rest).map (fun n => -(n : Int))
  | '+' :: rest => (digitsVal rest).map (fun n => (n : Int))
  | _ => (digitsVal l).map (fun n => (n : Int))

/-- Embedding of `parseInt(env) || fileValue`: the file value wins when the variable is
unset, unparsable (`NaN`), or parses to the falsy 0. -/
def envIntOr (e : Option String) (fileValue : Int) : Int :=
  match e with
  | none => fileValue
  | some s =>
    match jsParseInt s with
    | none => fileValue
    | some n => if n = 0 then fileValue else n

/-- The `config.routing` assembly of `config/index.js`: each rule's enabled
flag is `process.env.ENABLE_*_ROUTING === 'true' || fileValue`, the
percentage split fields are `parseInt(env) || fileValue`, and everything
else is spread from the file rules. -/
def assembleRouting (env : Env) (file : FileRules) : RoutingConfig :=
  { percentage :=
      { enabled := (env.enablePercentageRouting == some "true") || file.percentage.enabled
        blue := envIntOr env.bluePercentage file.percentage.blue
        green := envIntOr env.greenPercentage file.percentage.green }
    header := { file.header with
      enabled := (env.enableHeaderRouting == some "true") || file.header.enabled }
    cookie := { file.cookie with
      enabled := (env.enableCookieRouting == some "true") || file.cookie.enabled }
    ip := { file.ip with
      enabled := (env.enableIpRouting == some "true") || file.ip.enabled }
    stickySession := file.stickySession
    priority := file.priority }

/-- The hardcoded fallback rule set used when `routing-rules.json` fails to
load. -/
def fallbackRules : FileRules :=
  { percentage := { enabled := true, blue := 70, green := 30 }
    header := { enabled := true, headerName := "X-Version",
                blueValue := some "blue", greenValue := some "green" }
    cookie := { enabled := true, cookieName := "pricing-version", maxAge := some 86400000 }
    ip := { enabled := true, blueIps := [], greenIps := [] }
    stickySession := { enabled := true, cookieName := "session-version" }
    priority := ["header", "cookie", "ip", "percentage"] }

end BlueGreen.Config

namespace BlueGreen

/-- The reason tag a given rule produces when it is the rule that fires in
`determineVersion`: the rule-specific tags of `getRoutingReason`'s `switch`.
Rule names without an evaluator never fire, so their tag is arbitrary. -/
def ruleTag (cfg : RoutingConfig) (rule : String) : String :=
  if rule = "header" then "header-" ++ cfg.header.headerName
  else if rule = "cookie" then "cookie-" ++ cfg.cookie.cookieName
  else if rule = "ip" then "ip-based"
  else if rule = "percentage" then "percentage-split"
  else "unknown"

/-- The tag of the step of `determineVersion`'s priority loop that actually
decides: the tag of the first rule whose evaluator fires, or
`default-fallback` when the loop runs out. -/
def decidedTag (cfg : RoutingConfig) : List String → Request → String
  | [], _ => "default-fallback"
  | r :: rest, req =>
    match RoutingService.applyRule cfg r req with
    | some _ => ruleTag cfg r
    | none => decidedTag cfg rest req

/-- The tag of the step of `determineVersion` that actually decides the
variant: `sticky-session` when the sticky check short-circuits, otherwise
the tag of the deciding rule (or the fallback tag). -/
def decisionTag (cfg : RoutingConfig) (req : Request) : String :=
  match (if cfg.stickySession.enabled then RoutingService.checkStickySession cfg req else none) with
  | some _ => "sticky-session"
  | none => decidedTag cfg cfg.priority req

end BlueGreen

namespace BlueGreen.Fixtures

open BlueGreen BlueGreen.PricingService

/-- An environment with none of the routing variables set. -/
def emptyEnv : Config.Env := ⟨none, none, none, none, none, none⟩

/-- The routing configuration assembled from the fallback rules with no
environment overrides (the configuration the server runs with when
`routing-rules.json` is missing). -/
def baseCfg : RoutingConfig := Config.assembleRouting emptyEnv Config.fallbackRules

/-- A request carrying a valid green sticky cookie together with a header
that the header rule maps to blue. -/
def reqStickyGreenHeaderBlue : Request :=
  { ip := some "9.9.9.9"
    connectionRemoteAddress := none
    socketRemoteAddress := none
    connectionSocketRemoteAddress := none
    headers := [("x-version", "blue"), ("user-agent", "TestUA")]
    cookies := [("session-version", "green")] }

/-- A bare request with no headers and no cookies. -/
def emptyReq : Request :=
  { ip := some "8.8.8.8"
    connectionRemoteAddress := none
    socketRemoteAddress := none
    connectionSocketRemoteAddress := none
    headers := []
    cookies := [] }

/-- The request behind the spec's hash-stability identifier
`1.2.3.4-Mozilla/5.0`. -/
def reqPct : Request :=
  { ip := some "1.2.3.4"
    connectionRemoteAddress := none
    socketRemoteAddress := none
    connectionSocketRemoteAddress := none
    headers := [("user-agent", "Mozilla/5.0")]
    cookies := [] }

/-- The same client seen through an IPv6-mapped address. -/
def reqV6 : Request :=
  { ip := some "::ffff:1.2.3.4"
    connectionRemoteAddress := none
    socketRemoteAddress := none
    connectionSocketRemoteAddress := none
    headers := [("user-agent", "Mozilla/5.0")]
    cookies := [] }

/-- A request whose sticky cookie holds the invalid value `purple`. -/
def reqPurple : Request :=
  { ip := some "7.7.7.7"
    connectionRemoteAddress := none
    socketRemoteAddress := none
    connectionSocketRemoteAddress := none
    headers := []
    cookies := [("session-version", "purple")] }

/-- Embedding of `baseCfg` with the percentage rule disabled, so that a request missing
every other rule reaches the default fallback. -/
def cfgNoPct : RoutingConfig :=
  { baseCfg with percentage := { baseCfg.percentage with enabled := false } }

/-- The request used for the stats scenario. -/
def reqStats : Request :=
  { ip := some "1.1.1.1"
    connectionRemoteAddress := none
    socketRemoteAddress := none
    connectionSocketRemoteAddress := none
    headers := []
    cookies := [] }

/-- The service state after recording 3 blue and then 7 green decisions,
all from the `reqStats` client. -/
def st10 : ServiceState :=
  (List.replicate 3 "blue" ++ List.replicate 7 "green").foldl
    (fun st v => updateStats st v reqStats) initialState

/-- An environment that sets `ENABLE_HEADER_ROUTING=false` and
`ENABLE_COOKIE_ROUTING=true`. -/
def envHeaderFalseCookieTrue : Config.Env :=
  ⟨none, none, none, some "false", some "true", none⟩

/-- File rules that enable the header rule but disable the cookie rule. -/
def fileHeaderOnCookieOff : Config.FileRules :=
  { Config.fallbackRules with
    cookie := { Config.fallbackRules.cookie with enabled := false } }

end BlueGreen.Fixtures

namespace BlueGreen

open BlueGreen.RoutingService BlueGreen.PricingService

/-- The sticky check only ever yields the two variants. -/
theorem checkStickySession_mem (cfg : RoutingConfig) (req : Request) (v : String)
    (h : RoutingService.checkStickySession cfg req = some v) : v = "blue" ∨ v = "green" := by
  simp only [RoutingService.checkStickySession] at h
  split_ifs at h with h1
  rcases h1 with h1 | h1 <;> rw [h1] at h <;> simp_all

/-- The header evaluator only ever yields the two variants. -/
theorem applyHeaderRouting_mem (req : Request) (c : HeaderConfig) (v : String)
    (h : RoutingService.applyHeaderRouting req c = some v) : v = "blue" ∨ v = "green" := by
  simp only [RoutingService.applyHeaderRouting] at h
  split_ifs at h <;> simp_all

/-- The cookie evaluator only ever yields the two variants. -/
theorem applyCookieRouting_mem (req : Request) (c : CookieConfig) (v : String)
    (h : RoutingService.applyCookieRouting req c = some v) : v = "blue" ∨ v = "green" := by
  simp only [RoutingService.applyCookieRouting] at h
  split_ifs at h with h1
  rcases h1 with h1 | h1 <;> rw [h1] at h <;> simp_all

/-- The ip evaluator only ever yields the two variants. -/
theorem applyIpRouting_mem (req : Request) (c : IpConfig) (v : String)
    (h : RoutingService.applyIpRouting req c = some v) : v = "blue" ∨ v = "green" := by
  simp only [RoutingService.applyIpRouting] at h
  split_ifs at h <;> simp_all

/-- The percentage evaluator only ever yields the two variants. -/
theorem applyPercentageRouting_mem (req : Request) (c : PercentageConfig) :
    RoutingService.applyPercentageRouting req c = "blue" ∨
    RoutingService.applyPercentageRouting req c = "green" := by
  simp only [RoutingService.applyPercentageRouting]
  split_ifs <;> simp

/-- Any firing rule yields one of the two variants. -/
theorem applyRule_mem (cfg : RoutingConfig) (r : String) (req : Request) (v : String)
    (h : RoutingService.applyRule cfg r req = some v) : v = "blue" ∨ v = "green" := by
  simp only [RoutingService.applyRule] at h
  split_ifs at h <;>
    first
      | exact applyHeaderRouting_mem _ _ _ h
      | exact applyCookieRouting_mem _ _ _ h
      | exact applyIpRouting_mem _ _ _ h
      | (simp only [Option.some.injEq] at h
         rcases applyPercentageRouting_mem req cfg.percentage with hp | hp <;>
           rw [h] at hp <;> simp [hp])

/-- The priority loop (with its `'blue'` default) yields one of the two variants. -/
theorem applyRules_mem (cfg : RoutingConfig) (l : List String) (req : Request) :
    RoutingService.applyRules cfg l req = "blue" ∨
    RoutingService.applyRules cfg l req = "green" := by
  induction l with
  | nil => exact Or.inl rfl
  | cons r rest ih =>
    simp only [RoutingService.applyRules]
    cases hr : RoutingService.applyRule cfg r req with
    | some v => exact applyRule_mem cfg r req v hr
    | none => exact ih

/-- When a rule fires with variant `v` in `determineVersion`, the
corresponding `getRoutingReason` step yields exactly that rule's tag. -/
theorem reasonStep_fired (cfg : RoutingConfig) (r : String) (req : Request) (v : String)
    (h : RoutingService.applyRule cfg r req = some v) :
    PricingService.reasonStep cfg r req v = some (ruleTag cfg r) := by
  simp only [RoutingService.applyRule, RoutingService.applyHeaderRouting,
    RoutingService.applyCookieRouting, RoutingService.applyIpRouting] at h
  simp only [PricingService.reasonStep, ruleTag]
  split_ifs at h ⊢ <;> simp_all

/-- When a rule does not fire in `determineVersion` and the decided variant
is one of the two real variants, the corresponding `getRoutingReason` step
yields nothing. -/
theorem reasonStep_missed (cfg : RoutingConfig) (r : String) (req : Request) (version : String)
    (h : RoutingService.applyRule cfg r req = none)
    (hv : version = "blue" ∨ version = "green") :
    PricingService.reasonStep cfg r req version = none := by
  rcases hv with hv | hv <;> subst hv <;>
    (simp only [RoutingService.applyRule, RoutingService.applyHeaderRouting,
       RoutingService.applyCookieRouting, RoutingService.applyIpRouting] at h
     simp only [PricingService.reasonStep]
     split_ifs at h ⊢ <;> simp_all)

/-- Fed the variant the priority loop itself decided, the reason loop
recovers exactly the tag of the deciding rule. -/
theorem reasonRules_applyRules (cfg : RoutingConfig) (l : List String) (req : Request) :
    PricingService.reasonRules cfg l req (RoutingService.applyRules cfg l req) =
      decidedTag cfg l req := by
  induction l with
  | nil => rfl
  | cons r rest ih =>
    cases hr : RoutingService.applyRule cfg r req with
    | some v =>
      simp only [RoutingService.applyRules, PricingService.reasonRules, decidedTag, hr,
        reasonStep_fired cfg r req v hr]
    | none =>
      simp only [RoutingService.applyRules, PricingService.reasonRules, decidedTag, hr,
        reasonStep_missed cfg r req _ hr (applyRules_mem cfg rest req)]
      exact ih

/-- C2: For every routing configuration and every request, the reason tag
computed by `getRoutingReason` on the variant returned by `determineVersion`
equals the tag of the step of `determineVersion` that actually decided:
`sticky-session` when the sticky check decided, the firing rule's tag
(`header-<name>`, `cookie-<name>`, `ip-based`, `percentage-split`) when a
rule decided, and `default-fallback` when no rule fired. -/
theorem routing_reason_matches_decision (cfg : RoutingConfig) (req : Request) :
    PricingService.getRoutingReason cfg req (RoutingService.determineVersion cfg req) =
      decisionTag cfg req := by
  by_cases hen : cfg.stickySession.enabled
  · cases hs : RoutingService.checkStickySession cfg req with
    | some v =>
      simp [RoutingService.determineVersion, decisionTag, PricingService.getRoutingReason,
        hen, hs]
    | none =>
      simp [RoutingService.determineVersion, decisionTag, PricingService.getRoutingReason,
        hen, hs, reasonRules_applyRules]
  · simp [RoutingService.determineVersion, decisionTag, PricingService.getRoutingReason,
      hen, reasonRules_applyRules]

/-- C1: When sticky sessions are enabled and the sticky cookie holds a valid
variant, `determineVersion` returns that variant, the reported reason is
`sticky-session`, and the outcome is independent of every rule configuration
and of the priority list (only the sticky-session configuration matters), so
a higher-priority header rule preferring the other variant cannot win. -/
theorem sticky_session_short_circuits (cfg : RoutingConfig) (req : Request) (v : String)
    (hen : cfg.stickySession.enabled = true)
    (hcv : lookupStr req.cookies cfg.stickySession.cookieName = some v)
    (hv : v = "blue" ∨ v = "green") :
    RoutingService.determineVersion cfg req = v ∧
    PricingService.getRoutingReason cfg req v = "sticky-session" ∧
    ∀ cfg2 : RoutingConfig, cfg2.stickySession = cfg.stickySession →
      RoutingService.determineVersion cfg2 req = v := by
  have hcheck : ∀ cfg2 : RoutingConfig, cfg2.stickySession = cfg.stickySession →
      RoutingService.checkStickySession cfg2 req = some v := by
    intro cfg2 h2
    simp only [RoutingService.checkStickySession, h2, hcv]
    rcases hv with hv | hv <;> subst hv <;> simp
  refine ⟨?_, ?_, ?_⟩
  · simp [RoutingService.determineVersion, hen, hcheck cfg rfl]
  · simp [PricingService.getRoutingReason, hen, hcheck cfg rfl]
  · intro cfg2 h2
    have hen2 : cfg2.stickySession.enabled = true := by rw [h2]; exact hen
    simp [RoutingService.determineVersion, hen2, hcheck cfg2 h2]

/-- Witness for C1: with the fallback configuration, a green sticky cookie
beats a higher-priority header rule that would pick blue. -/
theorem sticky_session_short_circuits_witness :
    RoutingService.determineVersion Fixtures.baseCfg Fixtures.reqStickyGreenHeaderBlue =
      "green" ∧
    PricingService.getRoutingReason Fixtures.baseCfg Fixtures.reqStickyGreenHeaderBlue
      "green" = "sticky-session" ∧
    RoutingService.applyRule Fixtures.baseCfg "header" Fixtures.reqStickyGreenHeaderBlue =
      some "blue" := by
  have h := sticky_session_short_circuits Fixtures.baseCfg Fixtures.reqStickyGreenHeaderBlue
    "green" (by decide) (by decide) (by decide)
  exact ⟨h.1, h.2.1, by decide⟩

/-- C6: When the sticky check yields nothing and no rule in the priority
list fires, `determineVersion` returns the hardcoded default `'blue'`, the
derived reason is `default-fallback`, and such a run is only possible with
the percentage rule disabled or absent from the priority list. -/
theorem default_fallback_blue (cfg : RoutingConfig) (req : Request)
    (hsticky : (if cfg.stickySession.enabled then RoutingService.checkStickySession cfg req
      else none) = none)
    (hrules : ∀ r ∈ cfg.priority, RoutingService.applyRule cfg r req = none) :
    RoutingService.determineVersion cfg req = "blue" ∧
    PricingService.getRoutingReason cfg req (RoutingService.determineVersion cfg req) =
      "default-fallback" ∧
    (cfg.percentage.enabled = true → "percentage" ∉ cfg.priority) := by
  have hloop : ∀ l : List String, (∀ r ∈ l, RoutingService.applyRule cfg r req = none) →
      RoutingService.applyRules cfg l req = "blue" := by
    intro l
    induction l with
    | nil => intro _; rfl
    | cons r rest ih =>
      intro hal
      simp only [RoutingService.applyRules, hal r (List.mem_cons_self r rest)]
      exact ih (fun x hx => hal x (List.mem_cons_of_mem r hx))
  have hreason : ∀ l : List String, (∀ r ∈ l, RoutingService.applyRule cfg r req = none) →
      PricingService.reasonRules cfg l req "blue" = "default-fallback" := by
    intro l
    induction l with
    | nil => intro _; rfl
    | cons r rest ih =>
      intro hal
      simp only [PricingService.reasonRules,
        reasonStep_missed cfg r req "blue" (hal r (List.mem_cons_self r rest)) (Or.inl rfl)]
      exact ih (fun x hx => hal x (List.mem_cons_of_mem r hx))
  have hdv : RoutingService.determineVersion cfg req = "blue" := by
    unfold RoutingService.determineVersion
    rw [hsticky]
    exact hloop _ hrules
  refine ⟨hdv, ?_, ?_⟩
  · rw [hdv]
    by_cases hen : cfg.stickySession.enabled
    · have hcn : RoutingService.checkStickySession cfg req = none := by
        simpa [hen] using hsticky
      simp [PricingService.getRoutingReason, hen, hcn, hreason _ hrules]
    · simp [PricingService.getRoutingReason, hen, hreason _ hrules]
  · intro hpe hmem
    have hp := hrules "percentage" hmem
    simp [RoutingService.applyRule, hpe] at hp

/-- Witness for C6: fallback configuration with the percentage rule turned
off and a request missing every rule reaches the blue default fallback. -/
theorem default_fallback_blue_witness :
    RoutingService.determineVersion Fixtures.cfgNoPct Fixtures.emptyReq = "blue" ∧
    PricingService.getRoutingReason Fixtures.cfgNoPct Fixtures.emptyReq
      (RoutingService.determineVersion Fixtures.cfgNoPct Fixtures.emptyReq) =
      "default-fallback" := by
  have h := default_fallback_blue Fixtures.cfgNoPct Fixtures.emptyReq (by decide) (by decide)
  exact ⟨h.1, h.2.1⟩

/-- C9: The sticky check yields a variant exactly when the sticky cookie's
value is literally `blue` or `green`; otherwise it yields nothing and
`determineVersion` falls through to the rule loop. -/
theorem sticky_check_valid_values_only (cfg : RoutingConfig) (req : Request) :
    (∀ v : String, RoutingService.checkStickySession cfg req = some v ↔
      (lookupStr req.cookies cfg.stickySession.cookieName = some v ∧
        (v = "blue" ∨ v = "green"))) ∧
    (RoutingService.checkStickySession cfg req = none →
      RoutingService.determineVersion cfg req =
        RoutingService.applyRules cfg cfg.priority req) := by
  constructor
  · intro v
    constructor
    · intro h
      have hm := checkStickySession_mem cfg req v h
      simp only [RoutingService.checkStickySession] at h
      split_ifs at h with h1
      · exact ⟨h, hm⟩
    · rintro ⟨hl, hv⟩
      simp only [RoutingService.checkStickySession, hl]
      rcases hv with hv | hv <;> subst hv <;> simp
  · intro h
    unfold RoutingService.determineVersion
    by_cases hen : cfg.stickySession.enabled <;> simp [hen, h]

/-- Witness for C9: a `purple` sticky cookie is rejected and resolution
falls through to the rule loop. -/
theorem sticky_check_valid_values_only_witness :
    RoutingService.checkStickySession Fixtures.baseCfg Fixtures.reqPurple = none ∧
    RoutingService.determineVersion Fixtures.baseCfg Fixtures.reqPurple =
      RoutingService.applyRules Fixtures.baseCfg Fixtures.baseCfg.priority
        Fixtures.reqPurple := by
  have h := sticky_check_valid_values_only Fixtures.baseCfg Fixtures.reqPurple
  exact ⟨by decide, h.2 (by decide)⟩

/-- C4: Hash bucketing (first 32 bits of the MD5 digest as an unsigned
integer, mod 100) always lands in `[0, 99]`; the service-side and helper
hash functions agree; and the bucket is a pure function of the identifier
string, hence deterministic within and across runs. -/
theorem hash_bucket_range_and_determinism :
    (∀ s : String, Helpers.getPercentageFromHash s < 100) ∧
    (∀ s : String, RoutingService.hashString s % 100 < 100) ∧
    (∀ s : String, RoutingService.hashString s = Helpers.hashToNumber s) ∧
    (∀ s t : String, s = t →
      Helpers.getPercentageFromHash s = Helpers.getPercentageFromHash t) := by
  refine ⟨fun s => ?_, fun s => ?_, fun s => rfl, fun s t h => by rw [h]⟩
  · exact Nat.mod_lt _ (by norm_num)
  · exact Nat.mod_lt _ (by norm_num)

/-- Witness for C4: the spec's hash-stability identifier buckets to the
concrete value 52, inside `[0, 99]`, and re-evaluation agrees. -/
theorem hash_bucket_range_and_determinism_witness :
    Helpers.getPercentageFromHash "1.2.3.4-Mozilla/5.0" = 52 ∧
    Helpers.getPercentageFromHash "1.2.3.4-Mozilla/5.0" < 100 ∧
    Helpers.getPercentageFromHash "1.2.3.4-Mozilla/5.0" =
      Helpers.getPercentageFromHash "1.2.3.4-Mozilla/5.0" :=
  ⟨rfl, hash_bucket_range_and_determinism.1 "1.2.3.4-Mozilla/5.0",
    hash_bucket_range_and_determinism.2.2.2 "1.2.3.4-Mozilla/5.0" "1.2.3.4-Mozilla/5.0" rfl⟩

/-- C5: An enabled percentage rule always fires (never `none`); it picks
blue exactly when the identifier's bucket is strictly below the configured
blue percentage, green otherwise; and the configured green percentage is
never consulted (changing it cannot change the outcome). -/
theorem percentage_rule_total_blue_threshold (cfg : RoutingConfig) (req : Request)
    (hen : cfg.percentage.enabled = true) :
    RoutingService.applyRule cfg "percentage" req =
      some (RoutingService.applyPercentageRouting req cfg.percentage) ∧
    RoutingService.applyPercentageRouting req cfg.percentage =
      (if ((RoutingService.hashString (RoutingService.getClientIdentifier req) % 100 : Nat) :
          Int) < cfg.percentage.blue then "blue" else "green") ∧
    (∀ g : Int, RoutingService.applyPercentageRouting req
        ⟨cfg.percentage.enabled, cfg.percentage.blue, g⟩ =
      RoutingService.applyPercentageRouting req cfg.percentage) := by
  refine ⟨by simp [RoutingService.applyRule, hen], rfl, fun g => rfl⟩

/-- Witness for C5: with the fallback 70/30 split, the identifier
`1.2.3.4-Mozilla/5.0` (bucket 52) is routed to blue by the percentage rule. -/
theorem percentage_rule_total_blue_threshold_witness :
    RoutingService.applyRule Fixtures.baseCfg "percentage" Fixtures.reqPct = some "blue" := by
  have h := percentage_rule_total_blue_threshold Fixtures.baseCfg Fixtures.reqPct (by decide)
  rw [h.1]
  rfl

/-- C7: From reset stats, recording 3 blue and 7 green decisions yields a
snapshot with 10 total requests, a 30 percent blue share and a 70 percent
green share; an empty state reports 0 (not an error) for both shares; and
after a reset both variant counts and the unique-client count are 0. -/
theorem stats_three_blue_seven_green :
    PricingService.getStats Fixtures.st10 =
      { totalRequests := 10, blueCount := 3, bluePercentage := 30,
        greenCount := 7, greenPercentage := 70, uniqueClients := 1 } ∧
    PricingService.getStats PricingService.initialState =
      { totalRequests := 0, blueCount := 0, bluePercentage := 0,
        greenCount := 0, greenPercentage := 0, uniqueClients := 0 } ∧
    PricingService.getStats (PricingService.resetStats Fixtures.st10) =
      { totalRequests := 0, blueCount := 0, bluePercentage := 0,
        greenCount := 0, greenPercentage := 0, uniqueClients := 0 } := by
  have hb : PricingService.lookupNat Fixtures.st10.versionStats "blue" = 3 := by decide
  have hg : PricingService.lookupNat Fixtures.st10.versionStats "green" = 7 := by decide
  have hu : Fixtures.st10.requestCount.length = 1 := by decide
  refine ⟨?_, ?_, ?_⟩
  · simp [PricingService.getStats, hb, hg, hu]
    norm_num
  · simp [PricingService.getStats, PricingService.initialState, PricingService.lookupNat]
  · simp [PricingService.resetStats, PricingService.getStats, PricingService.initialState,
      PricingService.lookupNat]

/-- C8: A forced-version request naming anything other than `blue` or
`green` is rejected with HTTP 400 before any routing work: the service
state is unchanged and no sticky cookie is set, no pricing data fetched,
no stats recorded. -/
theorem forced_invalid_version_rejected (cfg : RoutingConfig) (st : PricingService.ServiceState)
    (req : Request) (version : String)
    (h1 : version ≠ "blue") (h2 : version ≠ "green") :
    PricingController.getSpecificVersion cfg version st req =
      (400, st, PricingService.noEffects) := by
  simp [PricingController.getSpecificVersion, h1, h2]

/-- Witness for C8: forcing version `purple` returns 400 and performs
nothing. -/
theorem forced_invalid_version_rejected_witness :
    PricingController.getSpecificVersion Fixtures.baseCfg "purple"
      PricingService.initialState Fixtures.emptyReq =
      (400, PricingService.initialState, PricingService.noEffects) :=
  forced_invalid_version_rejected Fixtures.baseCfg PricingService.initialState
    Fixtures.emptyReq "purple" (by decide) (by decide)

/-- Counterexample to C3: for a request arriving with the IPv6-mapped
address `::ffff:1.2.3.4`, the identifier used for percentage bucketing is
built from the raw IP, not from the normalized one (`sanitizeIp` would
give `1.2.3.4`), and the two candidate identifiers even land in different
buckets, so normalization would change routing. -/
theorem client_identifier_not_normalized :
    RoutingService.getClientIdentifier Fixtures.reqV6 = "::ffff:1.2.3.4-Mozilla/5.0" ∧
    Helpers.sanitizeIp (some (RoutingService.getClientIp Fixtures.reqV6)) = "1.2.3.4" ∧
    RoutingService.getClientIdentifier Fixtures.reqV6 ≠
      Helpers.sanitizeIp (some (RoutingService.getClientIp Fixtures.reqV6)) ++ "-" ++
        "Mozilla/5.0" ∧
    Helpers.getPercentageFromHash (RoutingService.getClientIdentifier Fixtures.reqV6) ≠
      Helpers.getPercentageFromHash (RoutingService.getClientIdentifier Fixtures.reqPct) := by
  refine ⟨by decide, by decide, by decide, ?_⟩
  have h1 : Helpers.getPercentageFromHash
      (RoutingService.getClientIdentifier Fixtures.reqV6) = 92 := rfl
  have h2 : Helpers.getPercentageFromHash
      (RoutingService.getClientIdentifier Fixtures.reqPct) = 52 := rfl
  rw [h1, h2]
  decide

/-- C3 as amended: the client identifier concatenates the raw `getClientIp`
result (no IPv6-mapped unwrapping, no `::1` rewriting — `sanitizeIp` is not
on this path) with the raw user-agent and a `-` separator. -/
theorem client_identifier_uses_raw_ip (req : Request) (s : String)
    (hip : req.ip = some s) (hs : s ≠ "") :
    RoutingService.getClientIp req = s ∧
    RoutingService.getClientIdentifier req =
      s ++ "-" ++ ((lookupStr req.headers "user-agent").getD "") := by
  have h : RoutingService.getClientIp req = s := by
    simp [RoutingService.getClientIp, jsOr, jsTruthy, hip, hs]
  exact ⟨h, by simp [RoutingService.getClientIdentifier, h]⟩

/-- Witness for amended C3: the IPv6-mapped address flows into the
identifier verbatim. -/
theorem client_identifier_uses_raw_ip_witness :
    RoutingService.getClientIp Fixtures.reqV6 = "::ffff:1.2.3.4" ∧
    RoutingService.getClientIdentifier Fixtures.reqV6 = "::ffff:1.2.3.4-Mozilla/5.0" := by
  have h := client_identifier_uses_raw_ip Fixtures.reqV6 "::ffff:1.2.3.4"
    (by decide) (by decide)
  exact ⟨h.1, h.2.trans (by decide)⟩

/-- C10: Config assembly is monotone in the enabling direction only: each
assembled enabled flag is the disjunction of the `ENABLE_*_ROUTING === 'true'`
test with the file value, so the environment can enable a rule the file
disables, a file-enabled rule can never be disabled from the environment,
and any environment value other than `true` (including `false`) leaves the
file value in force. -/
theorem env_overrides_enable_only (env : Config.Env) (file : Config.FileRules) :
    ((Config.assembleRouting env file).percentage.enabled =
      ((env.enablePercentageRouting == some "true") || file.percentage.enabled)) ∧
    ((Config.assembleRouting env file).header.enabled =
      ((env.enableHeaderRouting == some "true") || file.header.enabled)) ∧
    ((Config.assembleRouting env file).cookie.enabled =
      ((env.enableCookieRouting == some "true") || file.cookie.enabled)) ∧
    ((Config.assembleRouting env file).ip.enabled =
      ((env.enableIpRouting == some "true") || file.ip.enabled)) ∧
    (file.percentage.enabled = true →
      (Config.assembleRouting env file).percentage.enabled = true) ∧
    (file.header.enabled = true → (Config.assembleRouting env file).header.enabled = true) ∧
    (file.cookie.enabled = true → (Config.assembleRouting env file).cookie.enabled = true) ∧
    (file.ip.enabled = true → (Config.assembleRouting env file).ip.enabled = true) ∧
    (env.enablePercentageRouting ≠ some "true" →
      (Config.assembleRouting env file).percentage.enabled = file.percentage.enabled) ∧
    (env.enableHeaderRouting ≠ some "true" →
      (Config.assembleRouting env file).header.enabled = file.header.enabled) ∧
    (env.enableCookieRouting ≠ some "true" →
      (Config.assembleRouting env file).cookie.enabled = file.cookie.enabled) ∧
    (env.enableIpRouting ≠ some "true" →
      (Config.assembleRouting env file).ip.enabled = file.ip.enabled) := by
  refine ⟨rfl, rfl, rfl, rfl, ?_, ?_, ?_, ?_, ?_, ?_, ?_, ?_⟩ <;>
    intro h <;> simp [Config.assembleRouting, h]

/-- Witness for C10: `ENABLE_HEADER_ROUTING=false` does not disable the
file-enabled header rule, `ENABLE_COOKIE_ROUTING=true` enables the
file-disabled cookie rule, and without the variable the file-disabled
cookie rule stays off. -/
theorem env_overrides_enable_only_witness :
    (Config.assembleRouting Fixtures.envHeaderFalseCookieTrue
      Fixtures.fileHeaderOnCookieOff).header.enabled = true ∧
    (Config.assembleRouting Fixtures.envHeaderFalseCookieTrue
      Fixtures.fileHeaderOnCookieOff).cookie.enabled = true ∧
    (Config.assembleRouting Fixtures.emptyEnv
      Fixtures.fileHeaderOnCookieOff).cookie.enabled = false := by
  have h1 := env_overrides_enable_only Fixtures.envHeaderFalseCookieTrue
    Fixtures.fileHeaderOnCookieOff
  have h2 := env_overrides_enable_only Fixtures.emptyEnv Fixtures.fileHeaderOnCookieOff
  refine ⟨h1.2.2.2.2.2.1 (by decide), h1.2.2.1.trans (by decide), h2.2.2.1.trans (by decide)⟩
